import Mathlib

/-!
Shallow embedding of `reiseplaner.py` (single-file trip planner).

Strings are modelled as lists of Unicode code points (`List Nat`).  The
Python case functions `str.lower` / `str.title` are modelled on the
character repertoire the program actually manipulates: ASCII letters plus
the German umlauts Ä/Ö/Ü (ß is treated as a cased letter that is its own
lower case; Python would expand a run-initial ß to "Ss", a situation
which does not arise in the data of this program).  Whitespace for
`str.strip` is the ASCII whitespace set.
-/

namespace Reiseplaner

/-- Code points of a string literal, the bridge from Lean string literals
to the `List Nat` model. -/
def S (s : String) : List Nat :=
  s.toList.map Char.toNat

/-- ASCII whitespace, the characters `str.strip` removes. -/
def isSpaceChar (c : Nat) : Bool :=
  decide (c = 32 ∨ c = 9 ∨ c = 10 ∨ c = 11 ∨ c = 12 ∨ c = 13)

/-- Cased characters of the modelled repertoire: ASCII letters, the German
umlauts and ß. -/
def isCasedChar (c : Nat) : Bool :=
  decide ((65 ≤ c ∧ c ≤ 90) ∨ (97 ≤ c ∧ c ≤ 122) ∨
    c = 196 ∨ c = 214 ∨ c = 220 ∨ c = 223 ∨ c = 228 ∨ c = 246 ∨ c = 252)

/-- Lower-case mapping (Python `str.lower` restricted to the modelled
repertoire): ASCII upper-case letters shift by 32, Ä/Ö/Ü map to ä/ö/ü,
everything else is fixed. -/
def lowerChar (c : Nat) : Nat :=
  if 65 ≤ c ∧ c ≤ 90 then c + 32
  else if c = 196 then 228
  else if c = 214 then 246
  else if c = 220 then 252
  else c

/-- Upper-case (= title-case) mapping on the modelled repertoire. -/
def upperChar (c : Nat) : Nat :=
  if 97 ≤ c ∧ c ≤ 122 then c - 32
  else if c = 228 then 196
  else if c = 246 then 214
  else if c = 252 then 220
  else c

/-- Does `hay` start with `needle`?  (Both arguments are code-point
lists; the patterns are laid out so the nil-needle case reduces without
inspecting `hay`.) -/
def startsWith : List Nat → List Nat → Bool
  | [], _ => true
  | _ :: _, [] => false
  | a :: as, b :: bs => a == b && startsWith as bs

/-- Substring test, the Python `needle in hay` operator for strings. -/
def containsSub (hay needle : List Nat) : Bool :=
  match hay with
  | [] => needle.isEmpty
  | c :: t => startsWith needle (c :: t) || containsSub t needle

/-- Python `str.strip`: drop whitespace from both ends. -/
def pyStrip (l : List Nat) : List Nat :=
  ((l.dropWhile isSpaceChar).reverse.dropWhile isSpaceChar).reverse

/-- Worker for Python `str.title`: a cased character that follows a cased
character is lower-cased, a cased character that follows a non-cased
character (or starts the string) is title-cased; other characters pass
through.  The Boolean argument records whether the previous character was
cased. -/
def titleAux : Bool → List Nat → List Nat
  | _, [] => []
  | prevCased, c :: rest =>
      (if isCasedChar c then (if prevCased then lowerChar c else upperChar c) else c)
        :: titleAux (isCasedChar c) rest

/-- Python `str.title`. -/
def pyTitle (l : List Nat) : List Nat :=
  titleAux false l

/-- The function `_normalize` from the source: `text.strip().title()`. -/
def normalize (text : List Nat) : List Nat :=
  pyTitle (pyStrip text)

/-- The "bad weather" keyword list of `_classify_weather`. -/
def badWeatherWords : List (List Nat) :=
  [S "regen", S "schlecht", S "bewölkt"]

/-- The "good weather" keyword list of `_classify_weather`. -/
def goodWeatherWords : List (List Nat) :=
  [S "sonnig", S "warm", S "heiss"]

/-- The function `_classify_weather` from the source: empty input is "gemischt"; the
lower-cased text is matched against the bad list first, then the good
list, otherwise "gemischt". -/
def classifyWeather (weather : List Nat) : List Nat :=
  if weather = [] then S "gemischt"
  else
    let w := weather.map lowerChar
    if badWeatherWords.any (fun wort => containsSub w wort) then S "schlecht"
    else if goodWeatherWords.any (fun wort => containsSub w wort) then S "gut"
    else S "gemischt"

/-- Lookup in an association list with a default, the Python `dict.get(k, d)`
(and, with an unreachable default, `dict[k]`).  Models the Python dict
literals of the source, whose keys are inserted in source order. -/
def lookupD {α : Type} (d : List (List Nat × α)) (key : List Nat) (dflt : α) : α :=
  match d with
  | [] => dflt
  | (k, v) :: rest => if k = key then v else lookupD rest key dflt

/-- The function `_build_activity_pool` from the source: a two-level dict from weather
class to time of day to the ordered candidate activity lists, every entry
ending in the normalized city name. -/
def buildActivityPool (city : List Nat) : List (List Nat × List (List Nat × List (List Nat))) :=
  let cityName := normalize city
  [ (S "gut",
     [ (S "morgen",
        [S "Spaziergang durch die Altstadt von " ++ cityName,
         S "Besuch eines lokalen Marktes in " ++ cityName,
         S "Frühstück in einem Café mit Terrasse in " ++ cityName]),
       (S "nachmittag",
        [S "Stadtführung oder Hop On Hop Off Tour in " ++ cityName,
         S "Besuch eines Parks oder einer Grünanlage in " ++ cityName,
         S "Radtour durch verschiedene Viertel von " ++ cityName]),
       (S "abend",
        [S "Abendessen in einem typischen Restaurant in " ++ cityName,
         S "Spaziergang am Abend durch " ++ cityName,
         S "Besuch einer Rooftop Bar mit Aussicht über " ++ cityName]) ]),
    (S "schlecht",
     [ (S "morgen",
        [S "Besuch eines Museums in " ++ cityName,
         S "Frühstück in einem gemütlichen Café in " ++ cityName,
         S "Besuch einer Markthalle in " ++ cityName]),
       (S "nachmittag",
        [S "Besuch einer Galerie oder Ausstellung in " ++ cityName,
         S "Shopping in einer Passage oder Mall in " ++ cityName,
         S "Besuch eines Science Centers oder Erlebnis-Museums in " ++ cityName]),
       (S "abend",
        [S "Abendessen mit lokaler Küche in " ++ cityName,
         S "Besuch eines Konzerts oder Theaters in " ++ cityName,
         S "Besuch einer Wein- oder Cocktailbar in " ++ cityName]) ]),
    (S "gemischt",
     [ (S "morgen",
        [S "Gemütlicher Start mit Café und kurzem Stadtspaziergang in " ++ cityName,
         S "Besuch einer bekannten Sehenswürdigkeit in " ++ cityName]),
       (S "nachmittag",
        [S "Kombination aus Museum und Spaziergang in " ++ cityName,
         S "Kulinarische Tour oder Street Food in " ++ cityName]),
       (S "abend",
        [S "Abendessen mit regionalen Spezialitäten in " ++ cityName,
         S "Entspannter Abend in einer Bar oder einem Café in " ++ cityName]) ]) ]

/-- Keyword list of the food interest category in `_interest_hint`. -/
def foodWords : List (List Nat) :=
  [S "essen", S "food", S "kulinar", S "restaurant"]

/-- Keyword list of the culture interest category in `_interest_hint`. -/
def cultureWords : List (List Nat) :=
  [S "kultur", S "museum", S "geschichte"]

/-- Keyword list of the nature interest category in `_interest_hint`. -/
def natureWords : List (List Nat) :=
  [S "natur", S "park", S "wandern"]

/-- Keyword list of the nightlife interest category in `_interest_hint`. -/
def nightlifeWords : List (List Nat) :=
  [S "nachtleben", S "bar", S "club"]

/-- The function `_interest_hint` from the source: the lower-cased interests text is
matched against the four keyword categories in source order, every match
appends its fixed clause, and a non-empty clause list is joined with
", " and wrapped as a "Schwerpunkt" sentence. -/
def interestHint (interests : List Nat) : List Nat :=
  if interests = [] then []
  else
    let lower := interests.map lowerChar
    let teile : List (List Nat) :=
      (if foodWords.any (fun wort => containsSub lower wort) then
        [S "Fokus auf Essen und lokale Spezialitäten"] else [])
      ++ (if cultureWords.any (fun wort => containsSub lower wort) then
        [S "viele kulturelle Programmpunkte und Museen"] else [])
      ++ (if natureWords.any (fun wort => containsSub lower wort) then
        [S "Möglichkeit für Natur und Grünflächen"] else [])
      ++ (if nightlifeWords.any (fun wort => containsSub lower wort) then
        [S "Optionen für Bars und Nachtleben"] else [])
    if teile = [] then []
    else S "Schwerpunkt: " ++ (List.intercalate (S ", ") teile ++ S ".")

/-- Decimal rendering of a natural number, Python `str` on the (validated,
hence non-negative) day count. -/
def natStr (n : Nat) : List Nat :=
  S (Nat.repr n)

/-- Cyclic selection from a bucket, as in the source: `bucket[(tag - 1) % len(bucket)]`. -/
def pick (bucket : List (List Nat)) (tag : Nat) : List Nat :=
  bucket.getD ((tag - 1) % bucket.length) []

/-- The bucket dictionary used by `plan_trip`:
`pool.get(weather_class, pool["gemischt"])`. -/
def bucketsFor (city weather : List Nat) : List (List Nat × List (List Nat)) :=
  let pool := buildActivityPool city
  lookupD pool (classifyWeather weather) (lookupD pool (S "gemischt") [])

/-- The five lines the `for tag in range(1, days_int + 1)` loop body of
`plan_trip` appends for one day. -/
def dayBlock (morgens nachmittags abends : List (List Nat)) (tag : Nat) : List (List Nat) :=
  [S "Tag " ++ natStr tag,
   S "  Morgen: " ++ pick morgens tag,
   S "  Nachmittag: " ++ pick nachmittags tag,
   S "  Abend: " ++ pick abends tag,
   []]

/-- The header block `plan_trip` emits before the day loop: title line,
optional interests echo, optional weather echo, optional hint line, blank
separator. -/
def headerLines (city : List Nat) (days_int : Nat) (interests weather : List Nat) : List (List Nat) :=
  [S "Reiseplan für " ++ (normalize city ++ (S " (" ++ (natStr days_int ++ S " Tage)")))]
  ++ (if interests = [] then [] else [S "Interessen: " ++ pyStrip interests])
  ++ (if weather = [] then [] else [S "Ausgegangene Wetterlage: " ++ pyStrip weather])
  ++ (if interestHint interests = [] then [] else [interestHint interests])
  ++ [[]]

/-- The full `lines` list `plan_trip` builds on the validated path. -/
def tripLines (city : List Nat) (days_int : Nat) (interests weather : List Nat) : List (List Nat) :=
  let buckets := bucketsFor city weather
  headerLines city days_int interests weather
    ++ (List.range' 1 days_int).flatMap
        (dayBlock (lookupD buckets (S "morgen") [])
          (lookupD buckets (S "nachmittag") [])
          (lookupD buckets (S "abend") []))

/-- Line joining, `"\n".join(lines)`. -/
def joinNL (lines : List (List Nat)) : List Nat :=
  List.intercalate [10] lines

/-- The `days` argument of the standalone `plan_trip`: either already an
integer or a string that `int(days)` must parse. -/
inductive DaysArg : Type
  | asInt : Int → DaysArg
  | asStr : List Nat → DaysArg

/-- Digit test for code points. -/
def isDigitChar (c : Nat) : Bool :=
  decide (48 ≤ c ∧ c ≤ 57)

/-- Value of a string of decimal digit code points. -/
def digitsVal (l : List Nat) : Nat :=
  l.foldl (fun acc c => acc * 10 + (c - 48)) 0

/-- Python `int` on a string, restricted to the surrounding-whitespace,
optional-sign, decimal-digit core (digit-group underscores and non-ASCII
digits are outside the model): `none` is the `ValueError` case. -/
def parseIntStr (s : List Nat) : Option Int :=
  match pyStrip s with
  | [] => none
  | c :: rest =>
    if c = 43 then
      if rest ≠ [] ∧ rest.all isDigitChar then some (Int.ofNat (digitsVal rest)) else none
    else if c = 45 then
      if rest ≠ [] ∧ rest.all isDigitChar then some (-(Int.ofNat (digitsVal rest))) else none
    else
      if (c :: rest).all isDigitChar then some (Int.ofNat (digitsVal (c :: rest))) else none

/-- The conversion `int(days)` of the source: identity on integers, string parsing on
strings, `none` for the `except` branch. -/
def toIntArg : DaysArg → Option Int
  | DaysArg.asInt n => some n
  | DaysArg.asStr s => parseIntStr s

/-- The function `plan_trip` from the source. -/
def plan_trip (city : List Nat) (days : DaysArg) (interests weather : List Nat) : List Nat :=
  if city = [] then S "Bitte eine Stadt angeben."
  else
    match toIntArg days with
    | none => S "Bitte \x27days\x27 als ganze Zahl angeben."
    | some days_int =>
      if days_int < 1 then S "Bitte die Anzahl Tage als positive Zahl angeben."
      else if days_int > 21 then S "Bitte maximal 21 Tage planen, sonst wird der Plan zu lang."
      else joinNL (tripLines city days_int.toNat interests weather)

theorem lowerChar_lowerChar (c : Nat) : lowerChar (lowerChar c) = lowerChar c := by
  unfold lowerChar
  split_ifs <;> omega

theorem upperChar_upperChar (c : Nat) : upperChar (upperChar c) = upperChar c := by
  unfold upperChar
  split_ifs <;> omega

theorem isCasedChar_lowerChar (c : Nat) : isCasedChar (lowerChar c) = isCasedChar c := by
  unfold lowerChar isCasedChar
  split_ifs <;> exact decide_eq_decide.mpr (by omega)

theorem isCasedChar_upperChar (c : Nat) : isCasedChar (upperChar c) = isCasedChar c := by
  unfold upperChar isCasedChar
  split_ifs <;> exact decide_eq_decide.mpr (by omega)

theorem isSpaceChar_lowerChar (c : Nat) : isSpaceChar (lowerChar c) = isSpaceChar c := by
  unfold lowerChar isSpaceChar
  split_ifs <;> exact decide_eq_decide.mpr (by omega)

theorem isSpaceChar_upperChar (c : Nat) : isSpaceChar (upperChar c) = isSpaceChar c := by
  unfold upperChar isSpaceChar
  split_ifs <;> exact decide_eq_decide.mpr (by omega)

theorem titleAux_map_isSpaceChar (l : List Nat) :
    ∀ b, (titleAux b l).map isSpaceChar = l.map isSpaceChar := by
  induction l with
  | nil => intro b; rfl
  | cons c rest ih =>
    intro b
    simp only [titleAux, List.map_cons, ih]
    congr 1
    split_ifs <;> simp [isSpaceChar_lowerChar, isSpaceChar_upperChar]

theorem titleAux_idem (l : List Nat) :
    ∀ b, titleAux b (titleAux b l) = titleAux b l := by
  induction l with
  | nil => intro b; rfl
  | cons c rest ih =>
    intro b
    by_cases hc : isCasedChar c = true
    · by_cases hb : b = true
      · simp [titleAux, hc, hb, isCasedChar_lowerChar, lowerChar_lowerChar, ih]
      · simp only [Bool.not_eq_true] at hb
        simp [titleAux, hc, hb, isCasedChar_upperChar, upperChar_upperChar, ih]
    · simp only [Bool.not_eq_true] at hc
      simp [titleAux, hc, ih]

theorem dropWhile_head_false (p : Nat → Bool) (l : List Nat) :
    ∀ c, (l.dropWhile p).head? = some c → p c = false := by
  induction l with
  | nil => intro c h; simp [List.dropWhile] at h
  | cons a t ih =>
    intro c h
    by_cases ha : p a = true
    · rw [List.dropWhile_cons_of_pos ha] at h
      exact ih c h
    · rw [List.dropWhile_cons_of_neg ha] at h
      simp only [List.head?_cons, Option.some.injEq] at h
      subst h
      simpa using ha

theorem dropWhile_of_head_false (p : Nat → Bool) (l : List Nat)
    (h : ∀ c, l.head? = some c → p c = false) : l.dropWhile p = l := by
  cases l with
  | nil => rfl
  | cons a t =>
    have := h a rfl
    rw [List.dropWhile_cons_of_neg (by simp [this])]

/-- A string has no whitespace at either end (the shape `pyStrip` leaves
behind). -/
def noSpaceEnds (l : List Nat) : Prop :=
  (∀ c, l.head? = some c → isSpaceChar c = false)
  ∧ (∀ c, l.reverse.head? = some c → isSpaceChar c = false)

theorem rev_dropWhile_rev_head (p : Nat → Bool) (A : List Nat) (c : Nat)
    (h : ((A.reverse.dropWhile p).reverse).head? = some c) : A.head? = some c := by
  have hsplit := congrArg List.reverse (List.takeWhile_append_dropWhile p A.reverse)
  rw [List.reverse_append, List.reverse_reverse] at hsplit
  cases hB : (A.reverse.dropWhile p).reverse with
  | nil => rw [hB] at h; simp at h
  | cons b t =>
    rw [hB] at h
    rw [hB] at hsplit
    rw [← hsplit]
    simpa using h

theorem pyStrip_noSpaceEnds (l : List Nat) : noSpaceEnds (pyStrip l) := by
  constructor
  · intro c hc
    unfold pyStrip at hc
    exact dropWhile_head_false isSpaceChar l c
      (rev_dropWhile_rev_head isSpaceChar (l.dropWhile isSpaceChar) c hc)
  · intro c hc
    unfold pyStrip at hc
    rw [List.reverse_reverse] at hc
    exact dropWhile_head_false isSpaceChar _ c hc

theorem pyStrip_of_noSpaceEnds (l : List Nat) (h : noSpaceEnds l) : pyStrip l = l := by
  unfold pyStrip
  rw [dropWhile_of_head_false isSpaceChar l h.1,
    dropWhile_of_head_false isSpaceChar l.reverse h.2, List.reverse_reverse]

theorem pyTitle_noSpaceEnds (l : List Nat) (h : noSpaceEnds l) :
    noSpaceEnds (pyTitle l) := by
  have hmap := titleAux_map_isSpaceChar l false
  constructor
  · intro c hc
    have h1 : ((pyTitle l).map isSpaceChar).head? = some (isSpaceChar c) := by
      rw [List.head?_map, hc]; rfl
    rw [pyTitle] at h1
    rw [hmap, List.head?_map] at h1
    rcases Option.map_eq_some'.1 h1 with ⟨c0, hc0, hval⟩
    rw [← hval]
    exact h.1 c0 hc0
  · intro c hc
    have h1 : ((pyTitle l).reverse.map isSpaceChar).head? = some (isSpaceChar c) := by
      rw [List.head?_map, hc]; rfl
    have hrev : (pyTitle l).reverse.map isSpaceChar = l.reverse.map isSpaceChar := by
      rw [List.map_reverse, List.map_reverse, pyTitle, hmap]
    rw [hrev, List.head?_map] at h1
    rcases Option.map_eq_some'.1 h1 with ⟨c0, hc0, hval⟩
    rw [← hval]
    exact h.2 c0 hc0

/-- C5: city-name normalization (strip, then title-case) is idempotent,
and it title-cases, e.g. mapping "  madrid  " to "Madrid". -/
theorem normalize_idem :
    (∀ s : List Nat, normalize (normalize s) = normalize s)
    ∧ normalize (S "  madrid  ") = S "Madrid" := by
  constructor
  · intro s
    unfold normalize
    rw [pyStrip_of_noSpaceEnds _ (pyTitle_noSpaceEnds _ (pyStrip_noSpaceEnds s))]
    exact titleAux_idem (pyStrip s) false
  · decide

/-- C2: day k (1-indexed) takes the bucket entry at index (k-1) mod n, so
selection repeats with period n (the bucket size). -/
theorem pick_cyclic (bucket : List (List Nat)) (k : Nat)
    (hk : 1 ≤ k) (hn : 0 < bucket.length) :
    pick bucket k = bucket.getD ((k - 1) % bucket.length) []
    ∧ pick bucket (k + bucket.length) = pick bucket k := by
  refine ⟨rfl, ?_⟩
  unfold pick
  have h1 : k + bucket.length - 1 = (k - 1) + bucket.length := by omega
  rw [h1, Nat.add_mod_right]

/-- C2 witness: in a two-entry bucket, day 3 repeats the choice of day 1. -/
theorem pick_cyclic_witness :
    pick [S "a", S "b"] 1 = [S "a", S "b"].getD ((1 - 1) % 2) []
    ∧ pick [S "a", S "b"] (1 + 2) = pick [S "a", S "b"] 1 :=
  pick_cyclic [S "a", S "b"] 1 (by decide) (by decide)

/-- C3: the classifier matches the lower-cased text; a bad-keyword match
wins (checked first), a good-keyword match is only reported when no bad
keyword matches, and otherwise — including the empty string — the result
is "gemischt"; in particular a string with both kinds of keyword, such as
"sonnig aber regen", classifies as "schlecht". -/
theorem classifyWeather_spec :
    (∀ w : List Nat,
      badWeatherWords.any (fun wort => containsSub (w.map lowerChar) wort) = true →
      classifyWeather w = S "schlecht")
    ∧ (∀ w : List Nat,
      badWeatherWords.any (fun wort => containsSub (w.map lowerChar) wort) = false →
      goodWeatherWords.any (fun wort => containsSub (w.map lowerChar) wort) = true →
      classifyWeather w = S "gut")
    ∧ (∀ w : List Nat,
      badWeatherWords.any (fun wort => containsSub (w.map lowerChar) wort) = false →
      goodWeatherWords.any (fun wort => containsSub (w.map lowerChar) wort) = false →
      classifyWeather w = S "gemischt")
    ∧ classifyWeather [] = S "gemischt"
    ∧ classifyWeather (S "sonnig aber regen") = S "schlecht" := by
  refine ⟨?_, ?_, ?_, rfl, by decide⟩
  · intro w hbad
    by_cases hw : w = []
    · subst hw; exact absurd hbad (by decide)
    · unfold classifyWeather
      rw [if_neg hw]
      simp only [hbad, if_true]
  · intro w hbad hgood
    by_cases hw : w = []
    · subst hw; exact absurd hgood (by decide)
    · unfold classifyWeather
      rw [if_neg hw]
      simp only [hbad, hgood, Bool.false_eq_true, if_false, if_true]
  · intro w hbad hgood
    by_cases hw : w = []
    · subst hw; rfl
    · unfold classifyWeather
      rw [if_neg hw]
      simp only [hbad, hgood, Bool.false_eq_true, if_false]

/-- C3 witness: "Regen" (upper case, bad keyword) classifies as "schlecht". -/
theorem classifyWeather_spec_witness :
    classifyWeather (S "Regen") = S "schlecht" :=
  classifyWeather_spec.1 (S "Regen") (by decide)

/-- C9: the weather class computed by the classifier is always a key of
the activity pool, so the defensive default of `pool.get(weather_class,
pool["gemischt"])` is never consulted: the lookup result does not depend
on the supplied default. -/
theorem pool_fallback_unreachable (weather city : List Nat)
    (d1 d2 : List (List Nat × List (List Nat))) :
    lookupD (buildActivityPool city) (classifyWeather weather) d1
      = lookupD (buildActivityPool city) (classifyWeather weather) d2 := by
  have hw : classifyWeather weather = S "schlecht"
      ∨ classifyWeather weather = S "gut"
      ∨ classifyWeather weather = S "gemischt" := by
    simp only [classifyWeather]
    by_cases h0 : weather = []
    · rw [if_pos h0]; right; right; rfl
    · rw [if_neg h0]
      split_ifs
      · left; rfl
      · right; left; rfl
      · right; right; rfl
  rcases hw with h | h | h <;> rw [h] <;> rfl

/-- C8: for every city the pool has, under each weather-class key, a
bucket per time of day with exactly 3 entries (good/bad classes) resp. 2
entries (mixed class), and every entry anywhere in the pool is fixed text
followed by the normalized city name. -/
theorem pool_bucket_shape (city : List Nat) :
    (∀ wc, wc ∈ [S "gut", S "schlecht"] →
      ∀ tod, tod ∈ [S "morgen", S "nachmittag", S "abend"] →
        (lookupD (lookupD (buildActivityPool city) wc []) tod []).length = 3)
    ∧ (∀ tod, tod ∈ [S "morgen", S "nachmittag", S "abend"] →
        (lookupD (lookupD (buildActivityPool city) (S "gemischt") []) tod []).length = 2)
    ∧ (∀ wc tod entry,
        entry ∈ lookupD (lookupD (buildActivityPool city) wc []) tod [] →
        ∃ pre, entry = pre ++ normalize city) := by
  refine ⟨?_, ?_, ?_⟩
  · intro wc hwc tod htod
    simp only [List.mem_cons, List.not_mem_nil, or_false] at hwc htod
    rcases hwc with rfl | rfl <;> rcases htod with rfl | rfl | rfl <;> rfl
  · intro tod htod
    simp only [List.mem_cons, List.not_mem_nil, or_false] at htod
    rcases htod with rfl | rfl | rfl <;> rfl
  · intro wc tod entry hmem
    simp only [buildActivityPool, lookupD] at hmem
    split_ifs at hmem
    all_goals simp only [lookupD] at hmem
    all_goals try split_ifs at hmem
    all_goals simp only [List.mem_cons, List.not_mem_nil, or_false] at hmem
    all_goals casesm* _ ∨ _
    all_goals exact ⟨_, by assumption⟩

/-- C8 witness: concrete bucket sizes and entry shape for the city "Rom". -/
theorem pool_bucket_shape_witness :
    (lookupD (lookupD (buildActivityPool (S "Rom")) (S "gut") []) (S "morgen") []).length = 3
    ∧ (lookupD (lookupD (buildActivityPool (S "Rom")) (S "gemischt") []) (S "abend") []).length = 2
    ∧ ∃ pre, S "Besuch eines Museums in Rom" = pre ++ normalize (S "Rom") :=
  ⟨(pool_bucket_shape (S "Rom")).1 (S "gut") (by decide) (S "morgen") (by decide),
   (pool_bucket_shape (S "Rom")).2.1 (S "abend") (by decide),
   (pool_bucket_shape (S "Rom")).2.2 (S "schlecht") (S "morgen")
     (S "Besuch eines Museums in Rom") (by decide)⟩

/-- The four interest categories in the fixed order of the spec (food,
culture, nature, nightlife), each with its keyword list and clause.
Stated from the wording of the spec to compare against `interestHint`. -/
def interestCategories : List (List (List Nat) × List Nat) :=
  [(foodWords, S "Fokus auf Essen und lokale Spezialitäten"),
   (cultureWords, S "viele kulturelle Programmpunkte und Museen"),
   (natureWords, S "Möglichkeit für Natur und Grünflächen"),
   (nightlifeWords, S "Optionen für Bars und Nachtleben")]

/-- Spec-side reconstruction of interest-hint derivation: keep the clause
of every category whose keyword list matches the lower-cased input, join
with ", " in category order, wrap as a "Schwerpunkt" sentence; empty
input or no match yields the empty string. -/
def hintSpec (interests : List Nat) : List Nat :=
  if interests = [] then []
  else
    let clauses := (interestCategories.filter
      (fun cat => cat.1.any (fun wort => containsSub (interests.map lowerChar) wort))).map Prod.snd
    if clauses = [] then []
    else S "Schwerpunkt: " ++ (List.intercalate (S ", ") clauses ++ S ".")

/-- C6: the interest hint of the source agrees everywhere with the
category-filter description of the spec, and on two sample inputs. -/
theorem interestHint_spec :
    (∀ interests : List Nat, interestHint interests = hintSpec interests)
    ∧ interestHint [] = []
    ∧ interestHint (S "Essen, Kultur")
        = S "Schwerpunkt: Fokus auf Essen und lokale Spezialitäten, viele kulturelle Programmpunkte und Museen."
    ∧ interestHint (S "xyz") = [] := by
  refine ⟨?_, rfl, by decide, by decide⟩
  intro interests
  unfold interestHint hintSpec interestCategories
  by_cases h0 : interests = []
  · simp [h0]
  · simp only [if_neg h0, List.filter_cons, List.filter_nil]
    cases h1 : foodWords.any (fun wort => containsSub (interests.map lowerChar) wort) <;>
      cases h2 : cultureWords.any (fun wort => containsSub (interests.map lowerChar) wort) <;>
        cases h3 : natureWords.any (fun wort => containsSub (interests.map lowerChar) wort) <;>
          cases h4 : nightlifeWords.any (fun wort => containsSub (interests.map lowerChar) wort) <;>
            simp [h1, h2, h3, h4]

theorem interestHint_shape (i : List Nat) :
    interestHint i = [] ∨ ∃ x, interestHint i = S "Schwerpunkt: " ++ x := by
  simp only [interestHint]
  split_ifs <;> first | (left; rfl) | (right; exact ⟨_, rfl⟩)

/-- Every line of the assembled plan is the title line, an interests echo,
a weather echo, a hint line, a blank line, or one of the four day-block
line kinds — with the echo lines only present for non-empty input. -/
theorem tripLines_shapes (city : List Nat) (d : Nat) (i w ℓ : List Nat)
    (h : ℓ ∈ tripLines city d i w) :
    (∃ x, ℓ = S "Reiseplan für " ++ x)
    ∨ (i ≠ [] ∧ ∃ x, ℓ = S "Interessen: " ++ x)
    ∨ (w ≠ [] ∧ ∃ x, ℓ = S "Ausgegangene Wetterlage: " ++ x)
    ∨ (i ≠ [] ∧ ∃ x, ℓ = S "Schwerpunkt: " ++ x)
    ∨ ℓ = []
    ∨ (∃ x, ℓ = S "Tag " ++ x)
    ∨ (∃ x, ℓ = S "  Morgen: " ++ x)
    ∨ (∃ x, ℓ = S "  Nachmittag: " ++ x)
    ∨ (∃ x, ℓ = S "  Abend: " ++ x) := by
  simp only [tripLines, headerLines, List.mem_append, List.mem_singleton] at h
  rcases h with ((((h | h) | h) | h) | h) | h
  · exact Or.inl ⟨_, h⟩
  · by_cases hi : i = []
    · simp [hi] at h
    · simp only [if_neg hi, List.mem_singleton] at h
      exact Or.inr (Or.inl ⟨hi, _, h⟩)
  · by_cases hw : w = []
    · simp [hw] at h
    · simp only [if_neg hw, List.mem_singleton] at h
      exact Or.inr (Or.inr (Or.inl ⟨hw, _, h⟩))
  · by_cases hh : interestHint i = []
    · simp [hh] at h
    · simp only [if_neg hh, List.mem_singleton] at h
      rcases interestHint_shape i with h0 | ⟨x, hx⟩
      · exact absurd h0 hh
      · refine Or.inr (Or.inr (Or.inr (Or.inl ⟨?_, x, by rw [h, hx]⟩)))
        intro hi
        exact hh (by rw [hi]; rfl)
  · exact Or.inr (Or.inr (Or.inr (Or.inr (Or.inl h))))
  · rw [List.mem_flatMap] at h
    rcases h with ⟨tag, htag, hline⟩
    simp only [dayBlock, List.mem_cons, List.not_mem_nil, or_false] at hline
    rcases hline with h | h | h | h | h
    · exact Or.inr (Or.inr (Or.inr (Or.inr (Or.inr (Or.inl ⟨_, h⟩)))))
    · exact Or.inr (Or.inr (Or.inr (Or.inr (Or.inr (Or.inr (Or.inl ⟨_, h⟩))))))
    · exact Or.inr (Or.inr (Or.inr (Or.inr (Or.inr (Or.inr (Or.inr (Or.inl ⟨_, h⟩)))))))
    · exact Or.inr (Or.inr (Or.inr (Or.inr (Or.inr (Or.inr (Or.inr (Or.inr ⟨_, h⟩)))))))
    · exact Or.inr (Or.inr (Or.inr (Or.inr (Or.inl h))))

/-- C7: with empty weather no "Ausgegangene Wetterlage" line appears and
the classification driving selection is "gemischt" (the mixed bucket of
the pool); with empty interests neither an "Interessen" echo nor a
"Schwerpunkt" hint line appears. -/
theorem empty_inputs_omit_lines :
    (∀ city d i ℓ, ℓ ∈ tripLines city d i [] →
        startsWith (S "Ausgegangene Wetterlage: ") ℓ = false)
    ∧ classifyWeather [] = S "gemischt"
    ∧ (∀ city, bucketsFor city [] = lookupD (buildActivityPool city) (S "gemischt") [])
    ∧ (∀ city d w ℓ, ℓ ∈ tripLines city d [] w →
        startsWith (S "Interessen: ") ℓ = false
        ∧ startsWith (S "Schwerpunkt: ") ℓ = false) := by
  refine ⟨?_, rfl, fun city => rfl, ?_⟩
  · intro city d i ℓ h
    rcases tripLines_shapes city d i [] ℓ h with
      ⟨x, rfl⟩ | ⟨_, x, rfl⟩ | ⟨hw, _⟩ | ⟨_, x, rfl⟩ | rfl | ⟨x, rfl⟩ | ⟨x, rfl⟩ | ⟨x, rfl⟩ | ⟨x, rfl⟩
    · rfl
    · rfl
    · exact absurd rfl hw
    · rfl
    · rfl
    · rfl
    · rfl
    · rfl
    · rfl
  · intro city d w ℓ h
    rcases tripLines_shapes city d [] w ℓ h with
      ⟨x, rfl⟩ | ⟨hi, _⟩ | ⟨_, x, rfl⟩ | ⟨hi, _⟩ | rfl | ⟨x, rfl⟩ | ⟨x, rfl⟩ | ⟨x, rfl⟩ | ⟨x, rfl⟩
    · exact ⟨rfl, rfl⟩
    · exact absurd rfl hi
    · exact ⟨rfl, rfl⟩
    · exact absurd rfl hi
    · exact ⟨rfl, rfl⟩
    · exact ⟨rfl, rfl⟩
    · exact ⟨rfl, rfl⟩
    · exact ⟨rfl, rfl⟩
    · exact ⟨rfl, rfl⟩

/-- C7 witness: a concrete plan with empty weather and interests has
neither echo line, and the mixed bucket is in use. -/
theorem empty_inputs_omit_lines_witness :
    (startsWith (S "Ausgegangene Wetterlage: ") (S "Tag 1") = false)
    ∧ bucketsFor (S "Rom") [] = lookupD (buildActivityPool (S "Rom")) (S "gemischt") [] :=
  ⟨empty_inputs_omit_lines.1 (S "Rom") 1 [] (S "Tag 1") (by decide),
   empty_inputs_omit_lines.2.2.1 (S "Rom")⟩

theorem plan_trip_asInt (c : List Nat) (n : Int) (i w : List Nat) (hc : c ≠ []) :
    plan_trip c (DaysArg.asInt n) i w =
      if n < 1 then S "Bitte die Anzahl Tage als positive Zahl angeben."
      else if n > 21 then S "Bitte maximal 21 Tage planen, sonst wird der Plan zu lang."
      else joinNL (tripLines c n.toNat i w) := by
  simp only [plan_trip, toIntArg]
  rw [if_neg hc]

/-- C4: `plan_trip` is total and returns the exact user-facing message on
each invalid input — empty city, unparseable days (e.g. "abc"),
days below 1 and days above 21 — with the boundary values 0 and 22
hitting the two out-of-range messages. -/
theorem plan_trip_error_messages :
    (∀ d i w, plan_trip [] d i w = S "Bitte eine Stadt angeben.")
    ∧ (∀ c d i w, c ≠ [] → toIntArg d = none →
        plan_trip c d i w = S "Bitte \x27days\x27 als ganze Zahl angeben.")
    ∧ (∀ c i w, c ≠ [] →
        plan_trip c (DaysArg.asStr (S "abc")) i w
          = S "Bitte \x27days\x27 als ganze Zahl angeben.")
    ∧ (∀ c (n : Int) i w, c ≠ [] → n < 1 →
        plan_trip c (DaysArg.asInt n) i w
          = S "Bitte die Anzahl Tage als positive Zahl angeben.")
    ∧ (∀ c (n : Int) i w, c ≠ [] → 21 < n →
        plan_trip c (DaysArg.asInt n) i w
          = S "Bitte maximal 21 Tage planen, sonst wird der Plan zu lang.")
    ∧ (∀ c i w, c ≠ [] →
        plan_trip c (DaysArg.asInt 0) i w
          = S "Bitte die Anzahl Tage als positive Zahl angeben.")
    ∧ (∀ c i w, c ≠ [] →
        plan_trip c (DaysArg.asInt 22) i w
          = S "Bitte maximal 21 Tage planen, sonst wird der Plan zu lang.") := by
  refine ⟨fun d i w => rfl, ?_, ?_, ?_, ?_, ?_, ?_⟩
  · intro c d i w hc hd
    simp only [plan_trip, hd]
    rw [if_neg hc]
  · intro c i w hc
    simp only [plan_trip]
    rw [if_neg hc]
    rfl
  · intro c n i w hc hn
    rw [plan_trip_asInt c n i w hc, if_pos hn]
  · intro c n i w hc hn
    rw [plan_trip_asInt c n i w hc, if_neg (by omega), if_pos hn]
  · intro c i w hc
    rw [plan_trip_asInt c 0 i w hc]
    rfl
  · intro c i w hc
    rw [plan_trip_asInt c 22 i w hc]
    rfl

/-- C4 witness: concrete invalid inputs produce the exact messages. -/
theorem plan_trip_error_messages_witness :
    plan_trip (S "Rom") (DaysArg.asStr (S "abc")) [] []
      = S "Bitte \x27days\x27 als ganze Zahl angeben."
    ∧ plan_trip (S "Rom") (DaysArg.asInt 0) [] []
      = S "Bitte die Anzahl Tage als positive Zahl angeben."
    ∧ plan_trip (S "Rom") (DaysArg.asInt 22) [] []
      = S "Bitte maximal 21 Tage planen, sonst wird der Plan zu lang." :=
  ⟨plan_trip_error_messages.2.2.1 (S "Rom") [] [] (by decide),
   plan_trip_error_messages.2.2.2.2.2.1 (S "Rom") [] [] (by decide),
   plan_trip_error_messages.2.2.2.2.2.2 (S "Rom") [] [] (by decide)⟩

/-- Spec-side day-block checker: starting at expected day number k, the
line list must consist of consecutive blocks "Tag k" / morning /
afternoon / evening / blank, and the result counts the blocks. -/
def dayBlocksCount : Nat → List (List Nat) → Option Nat
  | _, [] => some 0
  | k, h :: m :: nn :: a :: b :: rest =>
      if h = S "Tag " ++ natStr k
          ∧ startsWith (S "  Morgen: ") m = true
          ∧ startsWith (S "  Nachmittag: ") nn = true
          ∧ startsWith (S "  Abend: ") a = true
          ∧ b = []
      then (dayBlocksCount (k + 1) rest).map (fun x => x + 1)
      else none
  | _, _ => none

theorem dayBlocksCount_cons (k : Nat) (h m nn a b : List Nat) (rest : List (List Nat)) :
    dayBlocksCount k (h :: m :: nn :: a :: b :: rest)
      = if h = S "Tag " ++ natStr k
            ∧ startsWith (S "  Morgen: ") m = true
            ∧ startsWith (S "  Nachmittag: ") nn = true
            ∧ startsWith (S "  Abend: ") a = true
            ∧ b = []
        then (dayBlocksCount (k + 1) rest).map (fun x => x + 1)
        else none := rfl

theorem dayBlocksCount_flatMap (M N A : List (List Nat)) :
    ∀ d k : Nat,
      dayBlocksCount k ((List.range' k d).flatMap (dayBlock M N A)) = some d := by
  intro d
  induction d with
  | zero => intro k; rfl
  | succ d ih =>
    intro k
    rw [List.range'_succ, List.flatMap_cons]
    show dayBlocksCount k
      ((S "Tag " ++ natStr k) :: (S "  Morgen: " ++ pick M k) :: (S "  Nachmittag: " ++ pick N k)
        :: (S "  Abend: " ++ pick A k) :: []
        :: (List.range' (k + 1) d).flatMap (dayBlock M N A)) = some (d + 1)
    rw [dayBlocksCount_cons, if_pos ⟨rfl, rfl, rfl, rfl, rfl⟩, ih (k + 1)]
    rfl

theorem countP_tag_flatMap (M N A : List (List Nat)) :
    ∀ d k : Nat,
      ((List.range' k d).flatMap (dayBlock M N A)).countP
        (fun ℓ => startsWith (S "Tag ") ℓ) = d := by
  intro d
  induction d with
  | zero => intro k; rfl
  | succ d ih =>
    intro k
    rw [List.range'_succ, List.flatMap_cons, List.countP_append, ih (k + 1)]
    have hb : (dayBlock M N A k).countP (fun ℓ => startsWith (S "Tag ") ℓ) = 1 := rfl
    omega

/-- Every header line is the title, an interests echo, a weather echo, a
hint line or the blank separator. -/
theorem headerLines_shapes (city : List Nat) (d : Nat) (i w ℓ : List Nat)
    (h : ℓ ∈ headerLines city d i w) :
    (∃ x, ℓ = S "Reiseplan für " ++ x)
    ∨ (∃ x, ℓ = S "Interessen: " ++ x)
    ∨ (∃ x, ℓ = S "Ausgegangene Wetterlage: " ++ x)
    ∨ (∃ x, ℓ = S "Schwerpunkt: " ++ x)
    ∨ ℓ = [] := by
  simp only [headerLines, List.mem_append, List.mem_singleton] at h
  rcases h with (((h | h) | h) | h) | h
  · exact Or.inl ⟨_, h⟩
  · by_cases hi : i = []
    · simp [hi] at h
    · simp only [if_neg hi, List.mem_singleton] at h
      exact Or.inr (Or.inl ⟨_, h⟩)
  · by_cases hw : w = []
    · simp [hw] at h
    · simp only [if_neg hw, List.mem_singleton] at h
      exact Or.inr (Or.inr (Or.inl ⟨_, h⟩))
  · by_cases hh : interestHint i = []
    · simp [hh] at h
    · simp only [if_neg hh, List.mem_singleton] at h
      rcases interestHint_shape i with h0 | ⟨x, hx⟩
      · exact absurd h0 hh
      · exact Or.inr (Or.inr (Or.inr (Or.inl ⟨x, by rw [h, hx]⟩)))
  · exact Or.inr (Or.inr (Or.inr (Or.inr h)))

theorem headerLines_no_tag (city : List Nat) (d : Nat) (i w ℓ : List Nat)
    (h : ℓ ∈ headerLines city d i w) : startsWith (S "Tag ") ℓ = false := by
  rcases headerLines_shapes city d i w ℓ h with
    ⟨x, rfl⟩ | ⟨x, rfl⟩ | ⟨x, rfl⟩ | ⟨x, rfl⟩ | rfl <;> rfl

/-- C1: on valid input the plan is the joined line list, whose lines
contain exactly `days` day headers, and after the header block the lines
form exactly `days` consecutive day blocks (day header "Tag k", one
morning line, one afternoon line, one evening line, one blank line). -/
theorem plan_trip_day_blocks (city : List Nat) (days : Int) (interests weather : List Nat)
    (hc : city ≠ []) (h1 : 1 ≤ days) (h2 : days ≤ 21) :
    plan_trip city (DaysArg.asInt days) interests weather
      = joinNL (tripLines city days.toNat interests weather)
    ∧ (tripLines city days.toNat interests weather).countP
        (fun ℓ => startsWith (S "Tag ") ℓ) = days.toNat
    ∧ ∃ header body,
        tripLines city days.toNat interests weather = header ++ body
        ∧ dayBlocksCount 1 body = some days.toNat
        ∧ (∀ ℓ, ℓ ∈ header → startsWith (S "Tag ") ℓ = false) := by
  refine ⟨?_, ?_, ?_⟩
  · rw [plan_trip_asInt city days interests weather hc,
      if_neg (by omega), if_neg (by omega)]
  · simp only [tripLines]
    rw [List.countP_append, countP_tag_flatMap]
    have h0 : (headerLines city days.toNat interests weather).countP
        (fun ℓ => startsWith (S "Tag ") ℓ) = 0 := by
      rw [List.countP_eq_zero]
      intro ℓ hl
      rw [headerLines_no_tag city days.toNat interests weather ℓ hl]
      exact Bool.false_ne_true
    omega
  · refine ⟨headerLines city days.toNat interests weather,
      (List.range' 1 days.toNat).flatMap
        (dayBlock (lookupD (bucketsFor city weather) (S "morgen") [])
          (lookupD (bucketsFor city weather) (S "nachmittag") [])
          (lookupD (bucketsFor city weather) (S "abend") [])),
      ?_, dayBlocksCount_flatMap _ _ _ days.toNat 1,
      fun ℓ hl => headerLines_no_tag city days.toNat interests weather ℓ hl⟩
    simp only [tripLines]

/-- C1 witness: a concrete valid plan for 2 days. -/
theorem plan_trip_day_blocks_witness :
    plan_trip (S "Rom") (DaysArg.asInt 2) [] []
      = joinNL (tripLines (S "Rom") ((2 : Int)).toNat [] []) :=
  (plan_trip_day_blocks (S "Rom") 2 [] [] (by decide) (by decide) (by decide)).1

set_option maxRecDepth 100000 in
/-- C10: a whitespace-only city passes the emptiness check (which only
rejects the empty string), so a full 2-day plan is produced whose header
and activity lines interpolate the empty normalized city name. -/
theorem whitespace_city_planned :
    plan_trip (S " ") (DaysArg.asInt 2) [] [] ≠ S "Bitte eine Stadt angeben."
    ∧ normalize (S " ") = []
    ∧ (tripLines (S " ") 2 [] []).head? = some (S "Reiseplan für  (2 Tage)")
    ∧ plan_trip (S " ") (DaysArg.asInt 2) [] [] = joinNL (tripLines (S " ") 2 [] [])
    ∧ (tripLines (S " ") 2 [] []).countP (fun ℓ => startsWith (S "Tag ") ℓ) = 2
    ∧ ((tripLines (S " ") 2 [] []).drop 3).head?
        = some (S "  Morgen: Gemütlicher Start mit Café und kurzem Stadtspaziergang in ") := by
  exact ⟨by decide, by decide, by decide, by decide, by decide, by decide⟩

end Reiseplaner
